import Mathlib

/-!
Verification of `create_favicons.py` (Secure-UI-Web repository).

The script reads an SVG file, rasterizes it at the fixed sizes 16, 32 and
180, writes each raster as a standalone PNG, retains the 16 and 32 pixel
buffers in memory, and finally saves a multi-resolution ICO file from the
first retained buffer with the sizes parameter [(16,16), (32,32)].

The external graphics libraries (cairosvg's `svg2png`, Pillow's
`Image.open` and `Image.save`) are modelled as an abstract environment
`Env`: the script only ever calls them as black boxes, so every theorem
below is parametric in that environment unless the claim itself is about
a property of the collaborator, in which case the property appears as an
explicit hypothesis taken from the specification's contract for the
collaborator.
-/

/-- Raw file contents: a sequence of byte values. -/
abbrev Bytes := List Nat

/-- `os.path.join(a, b)` for the shapes the script uses (a directory
component joined with a bare file name). -/
def osPathJoin (a b : String) : String :=
  if a = "" then b
  else if a.data.getLast? = some '/' then a ++ b
  else a ++ "/" ++ b

/-- The external collaborators of the script, over an abstract type `Img`
of in-memory decoded images (Pillow image objects).

* `svg2png` models `cairosvg.svg2png(bytestring, output_width,
  output_height)`: `none` models the call raising a conversion error on
  malformed vector data.
* `imageOpen` models `PIL.Image.open(io.BytesIO(png_data))`, decoding a
  raster buffer held in memory.
* `saveICO` models `img.save(path, format=ICO, sizes=...)`: the bytes the
  encoder produces for the given base image and requested sizes list.
* `pngDims` — Modelled from the spec: the decoded pixel dimensions of a
  raster buffer, used only to state the rasterizer contract ("rasterize
  the vector data to a square pixel buffer of that exact width/height");
  the decoding library itself is not part of this repository.
* `icoEntries` — Modelled from the spec: the list of embedded resolutions
  of an icon container, used only to state the encoder contract ("write a
  multi-resolution icon container embedding named resolutions"); the
  encoding library itself is not part of this repository. -/
structure Env (Img : Type) where
  svg2png : Bytes → Nat → Nat → Option Bytes
  imageOpen : Bytes → Img
  saveICO : Img → List (Nat × Nat) → Bytes
  pngDims : Bytes → Option (Nat × Nat)
  icoEntries : Bytes → List (Nat × Nat)

/-- Errors the run can abort with: `ioError` models the `open` call
raising on a missing/unreadable file, `conversionError` models
`cairosvg` raising on malformed vector data. -/
inductive Err where
  | ioError (path : String)
  | conversionError
deriving DecidableEq

/-- Observable state of a run: the file system (path to contents), the
lines printed so far, and the trace of file paths read from disk. -/
structure RunState where
  fs : String → Option Bytes
  prints : List String
  reads : List String

/-- Write `data` to `path` (the `open(path, 'wb'); f.write(...)` pair). -/
def RunState.writeFile (st : RunState) (path : String) (data : Bytes) : RunState :=
  { st with fs := fun p => if p = path then some data else st.fs p }

/-- Append a printed line. -/
def RunState.printLine (st : RunState) (s : String) : RunState :=
  { st with prints := st.prints ++ [s] }

/-- Record a file read from disk (the `open(path, 'rb')` call). -/
def RunState.recordRead (st : RunState) (path : String) : RunState :=
  { st with reads := st.reads ++ [path] }

/-- Result of the run: normal completion, or an uncaught exception with
the state (files written so far persist) at the moment it was raised. -/
inductive RunResult where
  | ok (st : RunState)
  | err (e : Err) (st : RunState)

/-- The state a run result leaves behind. -/
def RunResult.state : RunResult → RunState
  | .ok st => st
  | .err _ st => st

/-- Result of the size loop: the state together with the accumulated
`png_images` list, or an uncaught exception. -/
inductive LoopResult (Img : Type) where
  | ok (st : RunState) (png_images : List Img)
  | err (e : Err) (st : RunState)

/-- The `sizes` list of the script (lines 28-32): the fixed ordered
target sizes with their output paths. -/
def sizesList (output_dir : String) : List (Nat × String) :=
  [(16, osPathJoin output_dir "favicon-16x16.png"),
   (32, osPathJoin output_dir "favicon-32x32.png"),
   (180, osPathJoin output_dir "apple-touch-icon.png")]

/-- The `for size, output_path in sizes` loop (lines 36-48): rasterize at
each size, write the PNG, print a progress line, and retain the decoded
image for sizes 16 and 32. -/
def sizeLoop {Img : Type} (env : Env Img) (svg_data : Bytes) :
    List (Nat × String) → RunState → List Img → LoopResult Img
  | [], st, png_images => .ok st png_images
  | (size, output_path) :: rest, st, png_images =>
    match env.svg2png svg_data size size with
    | none => .err .conversionError st
    | some png_data =>
      let st := (st.writeFile output_path png_data).printLine
        ("✓ Created " ++ output_path)
      let png_images :=
        if size ∈ ([16, 32] : List Nat)
        then png_images ++ [env.imageOpen png_data]
        else png_images
      sizeLoop env svg_data rest st png_images

/-- The ICO step (lines 50-58): if `png_images` is non-empty, save an ICO
from `png_images[0]` with sizes `[(16,16), (32,32)]` and print a progress
line; otherwise do nothing. -/
def icoStep {Img : Type} (env : Env Img) (output_dir : String)
    (png_images : List Img) (st : RunState) : RunState :=
  match png_images with
  | [] => st
  | img0 :: _ =>
    let ico_path := osPathJoin output_dir "favicon.ico"
    ((st.writeFile ico_path (env.saveICO img0 [(16, 16), (32, 32)])).printLine
      ("✓ Created " ++ ico_path))

/-- `create_favicon_from_svg(svg_path, output_dir)` (lines 20-58). -/
def create_favicon_from_svg {Img : Type} (env : Env Img)
    (svg_path output_dir : String) (st : RunState) : RunResult :=
  match st.fs svg_path with
  | none => .err (.ioError svg_path) st
  | some svg_data =>
    let st := st.recordRead svg_path
    match sizeLoop env svg_data (sizesList output_dir) st [] with
    | .err e st => .err e st
    | .ok st png_images => .ok (icoStep env output_dir png_images st)

/-- `svg_file = "static/favicon.svg"` (line 61). -/
def svg_file : String := "static/favicon.svg"

/-- `output_directory = "static"` (line 62). -/
def output_directory : String := "static"

/-- The `__main__` block (lines 60-66). -/
def mainRun {Img : Type} (env : Env Img) (st : RunState) : RunResult :=
  let st := st.printLine "Creating favicon files from SVG..."
  match create_favicon_from_svg env svg_file output_directory st with
  | .err e st => .err e st
  | .ok st => .ok (st.printLine "\n✅ All favicon files created successfully!")

/-- The four output files of a successful run, at the main entry's fixed
output directory. -/
def outputPaths : List String :=
  ["static/favicon-16x16.png", "static/favicon-32x32.png",
   "static/apple-touch-icon.png", "static/favicon.ico"]

@[simp] theorem fs_printLine (st : RunState) (s : String) :
    (st.printLine s).fs = st.fs := rfl

@[simp] theorem fs_recordRead (st : RunState) (p : String) :
    (st.recordRead p).fs = st.fs := rfl

@[simp] theorem fs_writeFile (st : RunState) (p : String) (d : Bytes) (q : String) :
    (st.writeFile p d).fs q = if q = p then some d else st.fs q := rfl

@[simp] theorem prints_printLine (st : RunState) (s : String) :
    (st.printLine s).prints = st.prints ++ [s] := rfl

@[simp] theorem prints_recordRead (st : RunState) (p : String) :
    (st.recordRead p).prints = st.prints := rfl

@[simp] theorem prints_writeFile (st : RunState) (p : String) (d : Bytes) :
    (st.writeFile p d).prints = st.prints := rfl

@[simp] theorem reads_printLine (st : RunState) (s : String) :
    (st.printLine s).reads = st.reads := rfl

@[simp] theorem reads_recordRead (st : RunState) (p : String) :
    (st.recordRead p).reads = st.reads ++ [p] := rfl

@[simp] theorem reads_writeFile (st : RunState) (p : String) (d : Bytes) :
    (st.writeFile p d).reads = st.reads := rfl

theorem sizesList_static :
    sizesList "static" = [(16, "static/favicon-16x16.png"),
      (32, "static/favicon-32x32.png"), (180, "static/apple-touch-icon.png")] := rfl

theorem sizeLoop_nil {Img : Type} (env : Env Img) (svg : Bytes) (st : RunState)
    (imgs : List Img) : sizeLoop env svg [] st imgs = .ok st imgs := rfl

theorem sizeLoop_cons_some {Img : Type} (env : Env Img) (svg : Bytes)
    (s : Nat) (p : String) (rest : List (Nat × String)) (st : RunState)
    (imgs : List Img) (b : Bytes) (h : env.svg2png svg s s = some b) :
    sizeLoop env svg ((s, p) :: rest) st imgs =
      sizeLoop env svg rest ((st.writeFile p b).printLine ("✓ Created " ++ p))
        (if s ∈ ([16, 32] : List Nat) then imgs ++ [env.imageOpen b] else imgs) := by
  simp [sizeLoop, h]

theorem sizeLoop_cons_none {Img : Type} (env : Env Img) (svg : Bytes)
    (s : Nat) (p : String) (rest : List (Nat × String)) (st : RunState)
    (imgs : List Img) (h : env.svg2png svg s s = none) :
    sizeLoop env svg ((s, p) :: rest) st imgs = .err .conversionError st := by
  simp [sizeLoop, h]

/-- The exact final state of a successful run of the main entry: the
header line, the SVG read, one write and one progress line per size, the
ICO write from the first retained buffer, and the success line. -/
def successState {Img : Type} (env : Env Img) (st : RunState)
    (b16 b32 b180 : Bytes) : RunState :=
  ((((((((((st.printLine "Creating favicon files from SVG...").recordRead
    "static/favicon.svg").writeFile "static/favicon-16x16.png" b16).printLine
    "✓ Created static/favicon-16x16.png").writeFile "static/favicon-32x32.png"
    b32).printLine "✓ Created static/favicon-32x32.png").writeFile
    "static/apple-touch-icon.png" b180).printLine
    "✓ Created static/apple-touch-icon.png").writeFile "static/favicon.ico"
    (env.saveICO (env.imageOpen b16) [(16, 16), (32, 32)])).printLine
    "✓ Created static/favicon.ico").printLine
    "\n✅ All favicon files created successfully!"

theorem mainRun_eq_ok {Img : Type} (env : Env Img) (st : RunState)
    (svg b16 b32 b180 : Bytes)
    (hread : st.fs svg_file = some svg)
    (h16 : env.svg2png svg 16 16 = some b16)
    (h32 : env.svg2png svg 32 32 = some b32)
    (h180 : env.svg2png svg 180 180 = some b180) :
    mainRun env st = .ok (successState env st b16 b32 b180) := by
  have hread' : (st.printLine "Creating favicon files from SVG...").fs svg_file
      = some svg := hread
  unfold mainRun create_favicon_from_svg
  dsimp only
  rw [hread']
  dsimp only
  rw [show sizesList output_directory = [(16, "static/favicon-16x16.png"),
      (32, "static/favicon-32x32.png"), (180, "static/apple-touch-icon.png")] from rfl,
    sizeLoop_cons_some env svg 16 _ _ _ _ b16 h16,
    sizeLoop_cons_some env svg 32 _ _ _ _ b32 h32,
    sizeLoop_cons_some env svg 180 _ _ _ _ b180 h180,
    sizeLoop_nil]
  rfl

theorem mainRun_eq_err_missing {Img : Type} (env : Env Img) (st : RunState)
    (hread : st.fs svg_file = none) :
    mainRun env st =
      .err (.ioError svg_file) (st.printLine "Creating favicon files from SVG...") := by
  have hread' : (st.printLine "Creating favicon files from SVG...").fs svg_file
      = none := hread
  unfold mainRun create_favicon_from_svg
  dsimp only
  rw [hread']

theorem mainRun_eq_err_conv16 {Img : Type} (env : Env Img) (st : RunState)
    (svg : Bytes)
    (hread : st.fs svg_file = some svg)
    (h16 : env.svg2png svg 16 16 = none) :
    mainRun env st =
      .err .conversionError
        ((st.printLine "Creating favicon files from SVG...").recordRead
          "static/favicon.svg") := by
  have hread' : (st.printLine "Creating favicon files from SVG...").fs svg_file
      = some svg := hread
  unfold mainRun create_favicon_from_svg
  dsimp only
  rw [hread']
  dsimp only
  rw [show sizesList output_directory = [(16, "static/favicon-16x16.png"),
      (32, "static/favicon-32x32.png"), (180, "static/apple-touch-icon.png")] from rfl,
    sizeLoop_cons_none env svg 16 _ _ _ _ h16]
  rfl

theorem mainRun_eq_err_conv32 {Img : Type} (env : Env Img) (st : RunState)
    (svg b16 : Bytes)
    (hread : st.fs svg_file = some svg)
    (h16 : env.svg2png svg 16 16 = some b16)
    (h32 : env.svg2png svg 32 32 = none) :
    mainRun env st =
      .err .conversionError
        ((((st.printLine "Creating favicon files from SVG...").recordRead
          "static/favicon.svg").writeFile "static/favicon-16x16.png" b16).printLine
          "✓ Created static/favicon-16x16.png") := by
  have hread' : (st.printLine "Creating favicon files from SVG...").fs svg_file
      = some svg := hread
  unfold mainRun create_favicon_from_svg
  dsimp only
  rw [hread']
  dsimp only
  rw [show sizesList output_directory = [(16, "static/favicon-16x16.png"),
      (32, "static/favicon-32x32.png"), (180, "static/apple-touch-icon.png")] from rfl,
    sizeLoop_cons_some env svg 16 _ _ _ _ b16 h16,
    sizeLoop_cons_none env svg 32 _ _ _ _ h32]
  rfl

theorem mainRun_eq_err_conv180 {Img : Type} (env : Env Img) (st : RunState)
    (svg b16 b32 : Bytes)
    (hread : st.fs svg_file = some svg)
    (h16 : env.svg2png svg 16 16 = some b16)
    (h32 : env.svg2png svg 32 32 = some b32)
    (h180 : env.svg2png svg 180 180 = none) :
    mainRun env st =
      .err .conversionError
        ((((((st.printLine "Creating favicon files from SVG...").recordRead
          "static/favicon.svg").writeFile "static/favicon-16x16.png" b16).printLine
          "✓ Created static/favicon-16x16.png").writeFile "static/favicon-32x32.png"
          b32).printLine "✓ Created static/favicon-32x32.png") := by
  have hread' : (st.printLine "Creating favicon files from SVG...").fs svg_file
      = some svg := hread
  unfold mainRun create_favicon_from_svg
  dsimp only
  rw [hread']
  dsimp only
  rw [show sizesList output_directory = [(16, "static/favicon-16x16.png"),
      (32, "static/favicon-32x32.png"), (180, "static/apple-touch-icon.png")] from rfl,
    sizeLoop_cons_some env svg 16 _ _ _ _ b16 h16,
    sizeLoop_cons_some env svg 32 _ _ _ _ b32 h32,
    sizeLoop_cons_none env svg 180 _ _ _ _ h180]
  rfl

/-- The retained `png_images` list produced by the size loop on the main
entry's size list: exactly the decoded 16 and 32 pixel buffers, in order. -/
theorem sizeLoop_static_images {Img : Type} (env : Env Img) (st : RunState)
    (svg b16 b32 b180 : Bytes)
    (h16 : env.svg2png svg 16 16 = some b16)
    (h32 : env.svg2png svg 32 32 = some b32)
    (h180 : env.svg2png svg 180 180 = some b180) :
    sizeLoop env svg (sizesList "static") st [] =
      .ok ((((((st.writeFile "static/favicon-16x16.png" b16).printLine
        "✓ Created static/favicon-16x16.png").writeFile "static/favicon-32x32.png"
        b32).printLine "✓ Created static/favicon-32x32.png").writeFile
        "static/apple-touch-icon.png" b180).printLine
        "✓ Created static/apple-touch-icon.png")
        [env.imageOpen b16, env.imageOpen b32] := by
  rw [sizesList_static,
    sizeLoop_cons_some env svg 16 _ _ _ _ b16 h16,
    sizeLoop_cons_some env svg 32 _ _ _ _ b32 h32,
    sizeLoop_cons_some env svg 180 _ _ _ _ b180 h180,
    sizeLoop_nil]
  rfl

/-- The retained image list of a loop result (empty if the loop raised). -/
def LoopResult.images {Img : Type} : LoopResult Img → List Img
  | .ok _ imgs => imgs
  | .err _ _ => []

/-- Flat encoding of a sizes list into bytes, for concrete test encoders. -/
def encodeSizes : List (Nat × Nat) → Bytes
  | [] => []
  | (a, b) :: rest => a :: b :: encodeSizes rest

/-- Decoding matching `encodeSizes`. -/
def decodeSizes : Bytes → List (Nat × Nat)
  | a :: b :: rest => (a, b) :: decodeSizes rest
  | _ => []

theorem decodeSizes_encodeSizes (l : List (Nat × Nat)) :
    decodeSizes (encodeSizes l) = l := by
  induction l with
  | nil => rfl
  | cons x rest ih => cases x; simp [encodeSizes, decodeSizes, ih]

/-- A concrete well-behaved test environment over `Img := Bytes`: the
rasterizer returns the requested dimensions as the buffer, decoding is
the identity, and the ICO encoder records its base image and sizes. -/
def envW : Env Bytes :=
  { svg2png := fun _ w h => some [w, h]
    imageOpen := fun b => b
    saveICO := fun img sizes => img ++ encodeSizes sizes
    pngDims := fun b => match b with | [w, h] => some (w, h) | _ => none
    icoEntries := decodeSizes }

/-- A concrete environment whose ICO encoder embeds exactly the named
resolutions (the specification's contract for the icon encoder). -/
def envC : Env Bytes :=
  { envW with saveICO := fun _ sizes => encodeSizes sizes }

/-- A concrete environment whose rasterizer always fails (malformed
vector data). -/
def envBad : Env Bytes :=
  { envW with svg2png := fun _ _ _ => none }

/-- A concrete environment whose rasterizer succeeds at size 16 and
fails at every other size. -/
def envAt16 : Env Bytes :=
  { envW with svg2png := fun _ w _ => if w = 16 then some [16, 16] else none }

/-- A concrete environment returning one-byte rasters. -/
def envA : Env Bytes :=
  { svg2png := fun _ w _ => some [w]
    imageOpen := fun b => b
    saveICO := fun img _ => img
    pngDims := fun _ => none
    icoEntries := fun _ => [] }

/-- `envA` with a different in-memory decoding of the 32-pixel raster
(so the second retained buffer differs), everything else identical. -/
def envB : Env Bytes :=
  { envA with imageOpen := fun b => if b = [32] then [99] else b }

/-- A concrete initial state: only the source SVG file exists. -/
def st0 : RunState :=
  { fs := fun p => if p = "static/favicon.svg" then some [0] else none
    prints := []
    reads := [] }

/-- A concrete initial state with an empty file system. -/
def stEmpty : RunState :=
  { fs := fun _ => none, prints := [], reads := [] }

/-- C10: if the list of retained buffers is empty after the size loop,
the icon-bundle step is skipped silently: the state is returned untouched
(no favicon.ico write, no printed message) and no error is raised. -/
theorem C10_empty_retention_skipped {Img : Type} (env : Env Img)
    (output_dir : String) (st : RunState) :
    icoStep env output_dir [] st = st := rfl

/-- C4: if the source vector file does not exist at the given path, the
run fails with an IOError raised while loading the raw bytes, and the
file system is left completely unchanged (no PNG and no ICO written). -/
theorem C4_missing_input_aborts {Img : Type} (env : Env Img) (st : RunState)
    (hread : st.fs svg_file = none) :
    ∃ st', mainRun env st = .err (.ioError svg_file) st' ∧ st'.fs = st.fs :=
  ⟨_, mainRun_eq_err_missing env st hread, rfl⟩

theorem C4_witness :
    (stEmpty.fs svg_file = none) ∧
      ∃ st', mainRun envW stEmpty = .err (.ioError svg_file) st' ∧
        st'.fs = stEmpty.fs :=
  ⟨rfl, C4_missing_input_aborts envW stEmpty rfl⟩

/-- C3: for a malformed vector input (the rasterizer fails at every
size), the run fails with a ConversionError raised on the first size
attempted (16): the file system is completely unchanged — in particular
no size-16 output is written — and no per-file progress line beyond the
header was printed. -/
theorem C3_malformed_aborts_first {Img : Type} (env : Env Img)
    (st : RunState) (svg : Bytes)
    (hread : st.fs svg_file = some svg)
    (hbad : ∀ w h, env.svg2png svg w h = none) :
    ∃ st', mainRun env st = .err .conversionError st' ∧ st'.fs = st.fs ∧
      st'.prints = st.prints ++ ["Creating favicon files from SVG..."] :=
  ⟨_, mainRun_eq_err_conv16 env st svg hread (hbad 16 16), rfl, rfl⟩

theorem C3_witness :
    (st0.fs svg_file = some [0]) ∧ (∀ w h, envBad.svg2png [0] w h = none) ∧
      ∃ st', mainRun envBad st0 = .err .conversionError st' ∧ st'.fs = st0.fs ∧
        st'.prints = st0.prints ++ ["Creating favicon files from SVG..."] :=
  ⟨rfl, fun _ _ => rfl,
    C3_malformed_aborts_first envBad st0 [0] rfl (fun _ _ => rfl)⟩

/-- C2: for a valid vector input (the rasterizer succeeds at every
requested size), the run rasterizes at each size in [16, 32, 180] with
width = height = size and writes the resulting buffer at the fixed path
for that size; under the rasterizer contract, each written buffer
decodes to exactly its target square dimensions. -/
theorem C2_pngs_written_square {Img : Type} (env : Env Img) (st : RunState)
    (svg b16 b32 b180 : Bytes)
    (hread : st.fs svg_file = some svg)
    (h16 : env.svg2png svg 16 16 = some b16)
    (h32 : env.svg2png svg 32 32 = some b32)
    (h180 : env.svg2png svg 180 180 = some b180)
    (hdims : ∀ b w h out, env.svg2png b w h = some out →
      env.pngDims out = some (w, h)) :
    (∃ st', mainRun env st = .ok st') ∧
      (mainRun env st).state.fs "static/favicon-16x16.png" = some b16 ∧
      (mainRun env st).state.fs "static/favicon-32x32.png" = some b32 ∧
      (mainRun env st).state.fs "static/apple-touch-icon.png" = some b180 ∧
      env.pngDims b16 = some (16, 16) ∧
      env.pngDims b32 = some (32, 32) ∧
      env.pngDims b180 = some (180, 180) := by
  have hrun := mainRun_eq_ok env st svg b16 b32 b180 hread h16 h32 h180
  refine ⟨⟨_, hrun⟩, ?_, ?_, ?_, hdims svg 16 16 b16 h16, hdims svg 32 32 b32 h32,
    hdims svg 180 180 b180 h180⟩ <;>
  · rw [hrun]
    simp [successState, RunResult.state]

/-- The concrete environment `envW` satisfies the rasterizer contract. -/
theorem envW_dims_contract :
    ∀ b w h out, envW.svg2png b w h = some out → envW.pngDims out = some (w, h) := by
  intro b w h out hout
  have h2 : (some [w, h] : Option Bytes) = some out := hout
  rw [← Option.some.inj h2]
  rfl

theorem C2_witness :
    (st0.fs svg_file = some [0]) ∧
      (envW.svg2png [0] 16 16 = some [16, 16]) ∧
      (envW.svg2png [0] 32 32 = some [32, 32]) ∧
      (envW.svg2png [0] 180 180 = some [180, 180]) ∧
      ((∃ st', mainRun envW st0 = .ok st') ∧
        (mainRun envW st0).state.fs "static/favicon-16x16.png" = some [16, 16] ∧
        (mainRun envW st0).state.fs "static/favicon-32x32.png" = some [32, 32] ∧
        (mainRun envW st0).state.fs "static/apple-touch-icon.png" = some [180, 180] ∧
        envW.pngDims [16, 16] = some (16, 16) ∧
        envW.pngDims [32, 32] = some (32, 32) ∧
        envW.pngDims [180, 180] = some (180, 180)) :=
  ⟨rfl, rfl, rfl, rfl,
    C2_pngs_written_square envW st0 [0] [16, 16] [32, 32] [180, 180]
      rfl rfl rfl rfl envW_dims_contract⟩

/-- C5: the favicon.ico contents are derived solely from the first
retained buffer: the save operation is applied to `png_images[0]` (the
decoded 16-pixel raster) with the sizes parameter [(16,16), (32,32)],
and the ICO contents are unchanged under any reinterpretation of the
second retained buffer (any environment agreeing on the rasterizer, the
encoder, and the decoding of the 16-pixel raster alone yields the same
ICO bytes). -/
theorem C5_ico_from_first_buffer_only {Img : Type} (env : Env Img)
    (st : RunState) (svg b16 b32 b180 : Bytes)
    (hread : st.fs svg_file = some svg)
    (h16 : env.svg2png svg 16 16 = some b16)
    (h32 : env.svg2png svg 32 32 = some b32)
    (h180 : env.svg2png svg 180 180 = some b180) :
    (mainRun env st).state.fs "static/favicon.ico"
      = some (env.saveICO (env.imageOpen b16) [(16, 16), (32, 32)]) ∧
    ∀ env2 : Env Img, env2.svg2png = env.svg2png →
      env2.saveICO = env.saveICO → env2.imageOpen b16 = env.imageOpen b16 →
      (mainRun env2 st).state.fs "static/favicon.ico"
        = (mainRun env st).state.fs "static/favicon.ico" := by
  have e1 : (mainRun env st).state.fs "static/favicon.ico"
      = some (env.saveICO (env.imageOpen b16) [(16, 16), (32, 32)]) := by
    rw [mainRun_eq_ok env st svg b16 b32 b180 hread h16 h32 h180]
    simp [successState, RunResult.state]
  refine ⟨e1, fun env2 hsvg hsave hopen => ?_⟩
  have e2 : (mainRun env2 st).state.fs "static/favicon.ico"
      = some (env2.saveICO (env2.imageOpen b16) [(16, 16), (32, 32)]) := by
    rw [mainRun_eq_ok env2 st svg b16 b32 b180 hread (by rw [hsvg]; exact h16)
      (by rw [hsvg]; exact h32) (by rw [hsvg]; exact h180)]
    simp [successState, RunResult.state]
  rw [e1, e2, hsave, hopen]

theorem C5_witness :
    (st0.fs svg_file = some [0]) ∧
      (envW.svg2png [0] 16 16 = some [16, 16]) ∧
      (envW.svg2png [0] 32 32 = some [32, 32]) ∧
      (envW.svg2png [0] 180 180 = some [180, 180]) ∧
      ((mainRun envW st0).state.fs "static/favicon.ico"
          = some (envW.saveICO (envW.imageOpen [16, 16]) [(16, 16), (32, 32)]) ∧
        ∀ env2 : Env Bytes, env2.svg2png = envW.svg2png →
          env2.saveICO = envW.saveICO →
          env2.imageOpen [16, 16] = envW.imageOpen [16, 16] →
          (mainRun env2 st0).state.fs "static/favicon.ico"
            = (mainRun envW st0).state.fs "static/favicon.ico") :=
  ⟨rfl, rfl, rfl, rfl,
    C5_ico_from_first_buffer_only envW st0 [0] [16, 16] [32, 32] [180, 180]
      rfl rfl rfl rfl⟩

/-- C9: during the size loop exactly the sizes 16 and 32 are retained as
decoded in-memory buffers, in order; the whole run reads only the source
SVG from disk (the icon-bundle step re-reads nothing), and the ICO
contents are produced from the retained in-memory 16-pixel buffer. -/
theorem C9_retained_in_memory {Img : Type} (env : Env Img) (st : RunState)
    (svg b16 b32 b180 : Bytes)
    (hread : st.fs svg_file = some svg)
    (h16 : env.svg2png svg 16 16 = some b16)
    (h32 : env.svg2png svg 32 32 = some b32)
    (h180 : env.svg2png svg 180 180 = some b180) :
    (∃ st', sizeLoop env svg (sizesList "static")
        ((st.printLine "Creating favicon files from SVG...").recordRead svg_file) []
        = .ok st' [env.imageOpen b16, env.imageOpen b32]) ∧
      (mainRun env st).state.reads = st.reads ++ [svg_file] ∧
      (mainRun env st).state.fs "static/favicon.ico"
        = some (env.saveICO (env.imageOpen b16) [(16, 16), (32, 32)]) := by
  refine ⟨⟨_, sizeLoop_static_images env _ svg b16 b32 b180 h16 h32 h180⟩, ?_, ?_⟩ <;>
  · rw [mainRun_eq_ok env st svg b16 b32 b180 hread h16 h32 h180]
    simp [successState, RunResult.state, svg_file]

theorem C9_witness :
    (st0.fs svg_file = some [0]) ∧
      (envW.svg2png [0] 16 16 = some [16, 16]) ∧
      (envW.svg2png [0] 32 32 = some [32, 32]) ∧
      (envW.svg2png [0] 180 180 = some [180, 180]) ∧
      ((∃ st', sizeLoop envW [0] (sizesList "static")
          ((st0.printLine "Creating favicon files from SVG...").recordRead svg_file) []
          = .ok st' [envW.imageOpen [16, 16], envW.imageOpen [32, 32]]) ∧
        (mainRun envW st0).state.reads = st0.reads ++ [svg_file] ∧
        (mainRun envW st0).state.fs "static/favicon.ico"
          = some (envW.saveICO (envW.imageOpen [16, 16]) [(16, 16), (32, 32)])) :=
  ⟨rfl, rfl, rfl, rfl,
    C9_retained_in_memory envW st0 [0] [16, 16] [32, 32] [180, 180] rfl rfl rfl rfl⟩

/-- C7: the generator is deterministic (it is a function of the
environment and initial state) and idempotent up to file overwrite: for
a fixed input and a deterministic rasterizer, running the generator
twice yields byte-identical contents for all four output files. -/
theorem C7_idempotent {Img : Type} (env : Env Img) (st : RunState)
    (svg b16 b32 b180 : Bytes)
    (hread : st.fs svg_file = some svg)
    (h16 : env.svg2png svg 16 16 = some b16)
    (h32 : env.svg2png svg 32 32 = some b32)
    (h180 : env.svg2png svg 180 180 = some b180) :
    ∃ st1 st2, mainRun env st = .ok st1 ∧ mainRun env st1 = .ok st2 ∧
      ∀ p ∈ outputPaths, st2.fs p = st1.fs p := by
  have hread1 : (successState env st b16 b32 b180).fs svg_file = some svg := by
    simp only [successState, fs_printLine, fs_writeFile, svg_file]
    simpa [svg_file] using hread
  refine ⟨successState env st b16 b32 b180,
    successState env (successState env st b16 b32 b180) b16 b32 b180,
    mainRun_eq_ok env st svg b16 b32 b180 hread h16 h32 h180,
    mainRun_eq_ok env _ svg b16 b32 b180 hread1 h16 h32 h180, ?_⟩
  intro p hp
  simp only [outputPaths, List.mem_cons, List.not_mem_nil, or_false] at hp
  rcases hp with rfl | rfl | rfl | rfl <;> simp [successState]

theorem C7_witness :
    (st0.fs svg_file = some [0]) ∧
      (envW.svg2png [0] 16 16 = some [16, 16]) ∧
      (envW.svg2png [0] 32 32 = some [32, 32]) ∧
      (envW.svg2png [0] 180 180 = some [180, 180]) ∧
      ∃ st1 st2, mainRun envW st0 = .ok st1 ∧ mainRun envW st1 = .ok st2 ∧
        ∀ p ∈ outputPaths, st2.fs p = st1.fs p :=
  ⟨rfl, rfl, rfl, rfl,
    C7_idempotent envW st0 [0] [16, 16] [32, 32] [180, 180] rfl rfl rfl rfl⟩

/-- C8: a successful run writes exactly the four output files — each of
the four paths holds a file afterwards, written regardless of what was
there before (the initial state is arbitrary, so existing files are
overwritten without warning) — and every other path is untouched. -/
theorem C8_exactly_four_files {Img : Type} (env : Env Img) (st : RunState)
    (svg b16 b32 b180 : Bytes)
    (hread : st.fs svg_file = some svg)
    (h16 : env.svg2png svg 16 16 = some b16)
    (h32 : env.svg2png svg 32 32 = some b32)
    (h180 : env.svg2png svg 180 180 = some b180) :
    ∃ st', mainRun env st = .ok st' ∧
      (∀ p ∈ outputPaths, ∃ d, st'.fs p = some d) ∧
      (∀ p, p ∉ outputPaths → st'.fs p = st.fs p) := by
  refine ⟨_, mainRun_eq_ok env st svg b16 b32 b180 hread h16 h32 h180, ?_, ?_⟩
  · intro p hp
    simp only [outputPaths, List.mem_cons, List.not_mem_nil, or_false] at hp
    rcases hp with rfl | rfl | rfl | rfl
    · exact ⟨b16, by simp [successState]⟩
    · exact ⟨b32, by simp [successState]⟩
    · exact ⟨b180, by simp [successState]⟩
    · exact ⟨env.saveICO (env.imageOpen b16) [(16, 16), (32, 32)],
        by simp [successState]⟩
  · intro p hp
    simp only [outputPaths, List.mem_cons, List.not_mem_nil, or_false,
      not_or] at hp
    obtain ⟨n1, n2, n3, n4⟩ := hp
    simp [successState, n1, n2, n3, n4]

theorem C8_witness :
    (st0.fs svg_file = some [0]) ∧
      (envW.svg2png [0] 16 16 = some [16, 16]) ∧
      (envW.svg2png [0] 32 32 = some [32, 32]) ∧
      (envW.svg2png [0] 180 180 = some [180, 180]) ∧
      ∃ st', mainRun envW st0 = .ok st' ∧
        (∀ p ∈ outputPaths, ∃ d, st'.fs p = some d) ∧
        (∀ p, p ∉ outputPaths → st'.fs p = st0.fs p) :=
  ⟨rfl, rfl, rfl, rfl,
    C8_exactly_four_files envW st0 [0] [16, 16] [32, 32] [180, 180]
      rfl rfl rfl rfl⟩

/-- The i-th target size of the main run's size list. -/
def sizeAt (i : Fin 3) : Nat := ((sizesList "static").get i).1

/-- The i-th output path of the main run's size list. -/
def pathAt (i : Fin 3) : String := ((sizesList "static").get i).2

/-- C6: per-size write atomicity. If rasterization succeeds for every
size before position i of the fixed size list and raises at position i,
the run aborts with a ConversionError and the output file at position i,
and at every later position, holds exactly its initial contents (it is
neither created nor truncated by this run). -/
theorem C6_per_size_atomicity {Img : Type} (env : Env Img) (st : RunState)
    (svg : Bytes) (i : Fin 3)
    (hread : st.fs svg_file = some svg)
    (hok : ∀ j : Fin 3, j < i → ∃ b, env.svg2png svg (sizeAt j) (sizeAt j) = some b)
    (hfail : env.svg2png svg (sizeAt i) (sizeAt i) = none) :
    ∃ st', mainRun env st = .err .conversionError st' ∧
      ∀ j : Fin 3, i ≤ j → st'.fs (pathAt j) = st.fs (pathAt j) := by
  fin_cases i
  · exact ⟨_, mainRun_eq_err_conv16 env st svg hread hfail, fun j _ => rfl⟩
  · obtain ⟨b16, hb16⟩ := hok 0 (by decide)
    refine ⟨_, mainRun_eq_err_conv32 env st svg b16 hread hb16 hfail, ?_⟩
    intro j hj
    fin_cases j
    · exact absurd hj (by decide)
    · simp only [fs_printLine, fs_recordRead, fs_writeFile]
      rw [if_neg (by decide)]
    · simp only [fs_printLine, fs_recordRead, fs_writeFile]
      rw [if_neg (by decide)]
  · obtain ⟨b16, hb16⟩ := hok 0 (by decide)
    obtain ⟨b32, hb32⟩ := hok 1 (by decide)
    refine ⟨_, mainRun_eq_err_conv180 env st svg b16 b32 hread hb16 hb32 hfail, ?_⟩
    intro j hj
    fin_cases j
    · exact absurd hj (by decide)
    · exact absurd hj (by decide)
    · simp only [fs_printLine, fs_recordRead, fs_writeFile]
      rw [if_neg (by decide), if_neg (by decide)]

theorem C6_witness :
    (st0.fs svg_file = some [0]) ∧
      (∀ j : Fin 3, j < 1 →
        ∃ b, envAt16.svg2png [0] (sizeAt j) (sizeAt j) = some b) ∧
      (envAt16.svg2png [0] (sizeAt 1) (sizeAt 1) = none) ∧
      ∃ st', mainRun envAt16 st0 = .err .conversionError st' ∧
        ∀ j : Fin 3, 1 ≤ j → st'.fs (pathAt j) = st0.fs (pathAt j) := by
  have hok : ∀ j : Fin 3, j < 1 →
      ∃ b, envAt16.svg2png [0] (sizeAt j) (sizeAt j) = some b := by
    intro j hj
    fin_cases j
    · exact ⟨[16, 16], rfl⟩
    · exact absurd hj (by decide)
    · exact absurd hj (by decide)
  exact ⟨rfl, hok, rfl, C6_per_size_atomicity envAt16 st0 [0] 1 rfl hok rfl⟩

/-- C1 counterexample: the icon-bundle step does not combine the two
retained buffers. Concretely, two environments that agree on the
rasterizer, the ICO encoder and the decoding of the 16-pixel raster but
decode the 32-pixel raster differently — so the second retained buffer
differs ([32] versus [99]) — produce byte-identical favicon.ico
contents: the second retained buffer is not an input of the bundle. -/
theorem C1_counterexample :
    (sizeLoop envA [0] (sizesList "static")
        ((st0.printLine "Creating favicon files from SVG...").recordRead svg_file)
        []).images.get? 1 ≠
      (sizeLoop envB [0] (sizesList "static")
        ((st0.printLine "Creating favicon files from SVG...").recordRead svg_file)
        []).images.get? 1 ∧
    (mainRun envA st0).state.fs "static/favicon.ico"
      = (mainRun envB st0).state.fs "static/favicon.ico" := by
  constructor
  · decide
  · rfl

/-- C1 amended: when at least one buffer has been retained, the
icon-bundle step writes <output_dir>/favicon.ico by invoking the ICO
save on the first retained buffer (the decoded 16-pixel raster) with
the sizes parameter [(16,16), (32,32)]; under the specification's
encoder contract (the container embeds exactly the named resolutions),
the written container embeds exactly the two resolutions (16,16)
followed by (32,32), both derived from the first retained buffer. -/
theorem C1_amended_ico_resolutions {Img : Type} (env : Env Img)
    (st : RunState) (svg b16 b32 b180 : Bytes)
    (hread : st.fs svg_file = some svg)
    (h16 : env.svg2png svg 16 16 = some b16)
    (h32 : env.svg2png svg 32 32 = some b32)
    (h180 : env.svg2png svg 180 180 = some b180)
    (hEnc : ∀ img sizes, env.icoEntries (env.saveICO img sizes) = sizes) :
    (mainRun env st).state.fs "static/favicon.ico"
        = some (env.saveICO (env.imageOpen b16) [(16, 16), (32, 32)]) ∧
      ((mainRun env st).state.fs "static/favicon.ico").map env.icoEntries
        = some [(16, 16), (32, 32)] := by
  have e1 : (mainRun env st).state.fs "static/favicon.ico"
      = some (env.saveICO (env.imageOpen b16) [(16, 16), (32, 32)]) := by
    rw [mainRun_eq_ok env st svg b16 b32 b180 hread h16 h32 h180]
    simp [successState, RunResult.state]
  exact ⟨e1, by rw [e1]; simp [hEnc]⟩

theorem C1_witness :
    (st0.fs svg_file = some [0]) ∧
      (envC.svg2png [0] 16 16 = some [16, 16]) ∧
      (envC.svg2png [0] 32 32 = some [32, 32]) ∧
      (envC.svg2png [0] 180 180 = some [180, 180]) ∧
      (∀ img sizes, envC.icoEntries (envC.saveICO img sizes) = sizes) ∧
      ((mainRun envC st0).state.fs "static/favicon.ico"
          = some (envC.saveICO (envC.imageOpen [16, 16]) [(16, 16), (32, 32)]) ∧
        ((mainRun envC st0).state.fs "static/favicon.ico").map envC.icoEntries
          = some [(16, 16), (32, 32)]) :=
  ⟨rfl, rfl, rfl, rfl, fun _ sizes => decodeSizes_encodeSizes sizes,
    C1_amended_ico_resolutions envC st0 [0] [16, 16] [32, 32] [180, 180]
      rfl rfl rfl rfl (fun _ sizes => decodeSizes_encodeSizes sizes)⟩
